import Mathlib

/-!
Verification of the `we_clap` crate (src/src/lib.rs), a target-conditional
wrapper around the clap argument parser.  The crate contributes no parsing
of its own: each entry point selects an argument source for the build
target (the process argument vector on native, the URL-derived argument
sequence on wasm32), invokes the wrapped library's parse routine, and on
the wasm32 target routes the rendered failure message to an output sink
(browser success sink via cliw::output::print, error sink via
cliw::output::eprint) before calling std::process::exit(0).

The grammar, the parse routine and the parsed result are owned by the
wrapped clap library, so a grammar is embedded as its observable behavior:
the function from an argument list to clap's result, plus its rendered
help texts.  Entry points are embedded as pure functions producing an
outcome record listing the writes performed (sink and exact text), the
exit code passed to std::process::exit when it is called, and the value
returned to the caller when it is not.
-/

namespace WeClap

/-- The build target the crate branches on with cfg(target_arch = "wasm32"). -/
inductive Target where
  | native
  | wasm32
deriving DecidableEq, Repr

/-- An output sink.  On native: stdout (success) and stderr (error).  On
wasm32: cliw::output::print (success) and cliw::output::eprint (error). -/
inductive Sink where
  | success
  | error
deriving DecidableEq, Repr

/-- clap::error::ErrorKind, the discriminant the crate matches on.  All
constructors of the wrapped library's enum are listed so that the
wildcard arm of the source's match is modelled faithfully. -/
inductive ErrorKind where
  | invalidValue
  | unknownArgument
  | invalidSubcommand
  | noEquals
  | valueValidation
  | tooManyValues
  | tooFewValues
  | wrongNumberOfValues
  | argumentConflict
  | missingRequiredArgument
  | missingSubcommand
  | invalidUtf8
  | displayHelp
  | displayHelpOnMissingArgumentOrSubcommand
  | displayVersion
  | ioFailure
  | formatFailure
deriving DecidableEq, Repr

/-- clap::error::Error as the crate observes it: its kind (err.kind()) and
its Display formatting (what format("{err}") produces). -/
structure Error where
  kind : ErrorKind
  rendered : String
deriving DecidableEq, Repr

/-- clap::ArgMatches, observed here only as an opaque queryable value;
embedded as an association of argument ids to supplied values. -/
abbrev ArgMatches := List (String × List String)

/-- A clap::Command grammar, embedded as its observable behavior: how the
wrapped library parses a given argument list with it
(try_get_matches_from; try_get_matches_from_mut parses identically
without consuming the value), and its rendered help texts. -/
structure Command where
  tryGetMatchesFrom : List String → Except Error ArgMatches
  renderHelp : String
  renderLongHelp : String

/-- A type implementing clap::Parser, embedded as the wrapped library's
derived parse behavior for it (Parser::try_parse_from). -/
structure ParserImpl (T : Type) where
  tryParseFrom : List String → Except Error T

/-- The ambient argument sources: std::env::ArgsOs on native and
cliw::url_args::UrlArgs::new() on wasm32. -/
structure Env where
  argsOs : List String
  urlArgs : List String

/-- The argument list an entry point feeds to the wrapped library on the
given target. -/
def Env.srcArgs (env : Env) : Target → List String
  | .native => env.argsOs
  | .wasm32 => env.urlArgs

/-- Observable outcome of a terminating entry point: the writes performed
in order (sink and exact text), the code passed to std::process::exit if
it was called, and the value returned to the caller if it was not. -/
structure TermOutcome (α : Type) where
  writes : List (Sink × String)
  exitCode : Option Nat
  value : Option α

/-- Observable outcome of a non-terminating entry point: writes performed,
exit (if any), and the result value handed back to the caller. -/
structure TryOutcome (α : Type) where
  writes : List (Sink × String)
  exitCode : Option Nat
  result : Except Error α

/-- Modelled from the spec: clap's own error exit path, to which the
native branches delegate ("this entire behavior is delegated unchanged to
the wrapped library's own equivalent routine, which manages its own
output streams and exit codes").  Per the wrapped library's documented
contract, DisplayHelp and DisplayVersion errors print to stdout and exit
with code 0; every other kind prints to stderr and exits with code 2. -/
def clapErrorExit {α : Type} (err : Error) : TermOutcome α :=
  match err.kind with
  | .displayHelp | .displayVersion =>
      { writes := [(Sink.success, err.rendered)], exitCode := some 0, value := none }
  | _ =>
      { writes := [(Sink.error, err.rendered)], exitCode := some 2, value := none }

/-- Modelled from the spec: clap's native Command::get_matches /
Command::get_matches_mut and the derived Parser::parse — parse the
process argument vector, return the result on success, and on failure
print and exit via clapErrorExit. -/
def clapNativeRun {α : Type} (parse : List String → Except Error α)
    (argsOs : List String) : TermOutcome α :=
  match parse argsOs with
  | .ok a => { writes := [], exitCode := none, value := some a }
  | .error err => clapErrorExit err

/-- WeCommand::we_get_matches (src/src/lib.rs lines 261-285).  Native:
delegates to clap's get_matches on ArgsOs.  wasm32: try_get_matches_from
UrlArgs; on success return the matches; on failure format the error,
print it to the success sink when the kind is DisplayHelp or
DisplayVersion and to the error sink otherwise, then exit(0). -/
def we_get_matches (target : Target) (env : Env) (cmd : Command) :
    TermOutcome ArgMatches :=
  match target with
  | .native => clapNativeRun cmd.tryGetMatchesFrom env.argsOs
  | .wasm32 =>
      match cmd.tryGetMatchesFrom env.urlArgs with
      | .ok command => { writes := [], exitCode := none, value := some command }
      | .error err =>
          let msg := err.rendered
          match err.kind with
          | .displayHelp | .displayVersion =>
              { writes := [(Sink.success, msg)], exitCode := some 0, value := none }
          | _ =>
              { writes := [(Sink.error, msg)], exitCode := some 0, value := none }

/-- WeCommand::we_get_matches_mut (src/src/lib.rs lines 286-310).  Takes
the command by mutable reference rather than by value, so the command
value stays with the caller; returned here as the first component.
Otherwise the body repeats we_get_matches with
try_get_matches_from_mut. -/
def we_get_matches_mut (target : Target) (env : Env) (cmd : Command) :
    Command × TermOutcome ArgMatches :=
  match target with
  | .native => (cmd, clapNativeRun cmd.tryGetMatchesFrom env.argsOs)
  | .wasm32 =>
      (cmd,
        match cmd.tryGetMatchesFrom env.urlArgs with
        | .ok command => { writes := [], exitCode := none, value := some command }
        | .error err =>
            let msg := err.rendered
            match err.kind with
            | .displayHelp | .displayVersion =>
                { writes := [(Sink.success, msg)], exitCode := some 0, value := none }
            | _ =>
                { writes := [(Sink.error, msg)], exitCode := some 0, value := none })

/-- WeCommand::we_try_get_matches (src/src/lib.rs lines 311-320).  Native:
clap's try_get_matches on ArgsOs.  wasm32: try_get_matches_from UrlArgs.
Either way the wrapped library's result is returned as is: nothing is
written and std::process::exit is never reached. -/
def we_try_get_matches (target : Target) (env : Env) (cmd : Command) :
    TryOutcome ArgMatches :=
  match target with
  | .native =>
      { writes := [], exitCode := none, result := cmd.tryGetMatchesFrom env.argsOs }
  | .wasm32 =>
      { writes := [], exitCode := none, result := cmd.tryGetMatchesFrom env.urlArgs }

/-- WeParser::we_parse (src/src/lib.rs lines 411-439).  Native: delegates
to the derived Parser::parse.  wasm32: try_parse_from UrlArgs; on success
return the options; on failure format the error, route it by kind exactly
as we_get_matches does, then exit(0). -/
def we_parse {T : Type} (target : Target) (env : Env) (p : ParserImpl T) :
    TermOutcome T :=
  match target with
  | .native => clapNativeRun p.tryParseFrom env.argsOs
  | .wasm32 =>
      match p.tryParseFrom env.urlArgs with
      | .ok opts => { writes := [], exitCode := none, value := some opts }
      | .error err =>
          let msg := err.rendered
          match err.kind with
          | .displayHelp | .displayVersion =>
              { writes := [(Sink.success, msg)], exitCode := some 0, value := none }
          | _ =>
              { writes := [(Sink.error, msg)], exitCode := some 0, value := none }

/-- WeParser::we_try_parse (src/src/lib.rs lines 474-486).  Native: clap's
Parser::try_parse on ArgsOs.  wasm32: try_parse_from UrlArgs.  The
wrapped library's result is returned unchanged. -/
def we_try_parse {T : Type} (target : Target) (env : Env) (p : ParserImpl T) :
    TryOutcome T :=
  match target with
  | .native =>
      { writes := [], exitCode := none, result := p.tryParseFrom env.argsOs }
  | .wasm32 =>
      { writes := [], exitCode := none, result := p.tryParseFrom env.urlArgs }

/-- An io::Error from the host output stream, observed only opaquely. -/
structure HostWriteError where
  code : Nat
deriving DecidableEq, Repr

/-- Observable outcome of a print entry point: the writes attempted and
the io result returned to the caller. -/
structure PrintOutcome where
  writes : List (Sink × String)
  result : Except HostWriteError Unit

/-- WeCommand::we_print_help (src/src/lib.rs lines 322-334).  Native:
clap's print_help, which writes the rendered help to stdout and returns
the stream's io result (stdoutRes models the host stream's behavior).
wasm32: render_help, printed to the success sink via cliw::output::print,
whose output errors are ignored; Ok(()) is always returned. -/
def we_print_help (target : Target) (cmd : Command)
    (stdoutRes : Except HostWriteError Unit) : PrintOutcome :=
  match target with
  | .native =>
      { writes := [(Sink.success, cmd.renderHelp)], result := stdoutRes }
  | .wasm32 =>
      { writes := [(Sink.success, cmd.renderHelp)], result := Except.ok () }

/-- WeCommand::we_print_long_help (src/src/lib.rs lines 336-348).  Same as
we_print_help with the long help rendering. -/
def we_print_long_help (target : Target) (cmd : Command)
    (stdoutRes : Except HostWriteError Unit) : PrintOutcome :=
  match target with
  | .native =>
      { writes := [(Sink.success, cmd.renderLongHelp)], result := stdoutRes }
  | .wasm32 =>
      { writes := [(Sink.success, cmd.renderLongHelp)], result := Except.ok () }

/-- The source's display-routing condition: the arm
ErrorKind::DisplayHelp | ErrorKind::DisplayVersion of the match on
err.kind(). -/
def ErrorKind.isDisplay : ErrorKind → Bool
  | .displayHelp => true
  | .displayVersion => true
  | _ => false

/-- A concrete help-request error, as clap produces for a --help flag. -/
def helpErr : Error := { kind := .displayHelp, rendered := "Usage: demo [OPTIONS]" }

/-- A concrete malformed-argument error. -/
def badArgErr : Error :=
  { kind := .unknownArgument, rendered := "error: unexpected argument" }

/-- A concrete environment whose two argument sources agree. -/
def demoEnv : Env := { argsOs := ["demo", "--help"], urlArgs := ["demo", "--help"] }

/-- A concrete grammar on which every parse requests help. -/
def cmdHelpCase : Command :=
  { tryGetMatchesFrom := fun _ => .error helpErr
  , renderHelp := "Usage: demo [OPTIONS]"
  , renderLongHelp := "Usage: demo [OPTIONS]\nAn option" }

/-- A concrete derive grammar on which every parse requests help. -/
def optsHelpCase : ParserImpl Nat := { tryParseFrom := fun _ => .error helpErr }

/-- A concrete grammar on which every parse fails with a user error. -/
def cmdBadCase : Command :=
  { tryGetMatchesFrom := fun _ => .error badArgErr
  , renderHelp := "Usage: demo [OPTIONS]"
  , renderLongHelp := "Usage: demo [OPTIONS]\nAn option" }

/-- A concrete derive grammar on which every parse fails with a user error. -/
def optsBadCase : ParserImpl Nat := { tryParseFrom := fun _ => .error badArgErr }

/-- A concrete parsed match-result. -/
def sampleMatches : ArgMatches := [("value", ["3"])]

/-- A concrete grammar on which every parse succeeds. -/
def cmdOkCase : Command :=
  { tryGetMatchesFrom := fun _ => .ok sampleMatches
  , renderHelp := "Usage: demo [OPTIONS]"
  , renderLongHelp := "Usage: demo [OPTIONS]\nAn option" }

/-- A concrete derive grammar on which every parse succeeds. -/
def optsOkCase : ParserImpl Nat := { tryParseFrom := fun _ => .ok 7 }

/-- A native environment carrying the demo arguments in ArgsOs. -/
def envNat : Env := { argsOs := ["demo", "-v", "3"], urlArgs := [] }

/-- A web environment carrying the same logical arguments in UrlArgs. -/
def envWeb : Env := { argsOs := [], urlArgs := ["demo", "-v", "3"] }

/-- Claim C1: on either build target, when parsing fails with a
help-display or version-display condition, the terminating entry points
we_get_matches, we_get_matches_mut and we_parse write the formatted
message to the success sink and nothing to the error sink. -/
theorem we_clap_C1 {T : Type} (t : Target) (env : Env) (cmd : Command)
    (p : ParserImpl T) (err : Error)
    (hcmd : cmd.tryGetMatchesFrom (env.srcArgs t) = .error err)
    (hp : p.tryParseFrom (env.srcArgs t) = .error err)
    (hk : err.kind = .displayHelp ∨ err.kind = .displayVersion) :
    (we_get_matches t env cmd).writes = [(Sink.success, err.rendered)] ∧
    ((we_get_matches_mut t env cmd).2).writes = [(Sink.success, err.rendered)] ∧
    (we_parse t env p).writes = [(Sink.success, err.rendered)] := by
  rcases hk with hk | hk <;> cases t <;>
    simp_all [we_get_matches, we_get_matches_mut, we_parse, clapNativeRun,
      clapErrorExit, Env.srcArgs]

/-- Witness for C1 at a concrete grammar whose parse requests help. -/
theorem we_clap_C1_witness :
    (we_get_matches .wasm32 demoEnv cmdHelpCase).writes
        = [(Sink.success, helpErr.rendered)] ∧
    ((we_get_matches_mut .wasm32 demoEnv cmdHelpCase).2).writes
        = [(Sink.success, helpErr.rendered)] ∧
    (we_parse .wasm32 demoEnv optsHelpCase).writes
        = [(Sink.success, helpErr.rendered)] :=
  we_clap_C1 .wasm32 demoEnv cmdHelpCase optsHelpCase helpErr rfl rfl (Or.inl rfl)

/-- Claim C2: on either build target, when parsing fails with any
condition other than help-display or version-display, the terminating
entry points write the formatted message to the error sink and nothing to
the success sink. -/
theorem we_clap_C2 {T : Type} (t : Target) (env : Env) (cmd : Command)
    (p : ParserImpl T) (err : Error)
    (hcmd : cmd.tryGetMatchesFrom (env.srcArgs t) = .error err)
    (hp : p.tryParseFrom (env.srcArgs t) = .error err)
    (hk : ¬(err.kind = .displayHelp ∨ err.kind = .displayVersion)) :
    (we_get_matches t env cmd).writes = [(Sink.error, err.rendered)] ∧
    ((we_get_matches_mut t env cmd).2).writes = [(Sink.error, err.rendered)] ∧
    (we_parse t env p).writes = [(Sink.error, err.rendered)] := by
  obtain ⟨k, msg⟩ := err
  cases k <;> cases t <;>
    simp_all [we_get_matches, we_get_matches_mut, we_parse, clapNativeRun,
      clapErrorExit, Env.srcArgs]

/-- Witness for C2 at a concrete grammar whose parse rejects an
argument. -/
theorem we_clap_C2_witness :
    (we_get_matches .wasm32 demoEnv cmdBadCase).writes
        = [(Sink.error, badArgErr.rendered)] ∧
    ((we_get_matches_mut .wasm32 demoEnv cmdBadCase).2).writes
        = [(Sink.error, badArgErr.rendered)] ∧
    (we_parse .wasm32 demoEnv optsBadCase).writes
        = [(Sink.error, badArgErr.rendered)] :=
  we_clap_C2 .wasm32 demoEnv cmdBadCase optsBadCase badArgErr rfl rfl (by decide)

/-- Claim C3: on either build target, the non-terminating entry points
we_try_get_matches and we_try_parse never exit the process and never
write to a sink; they return the wrapped library's result unchanged. -/
theorem we_clap_C3 {T : Type} (t : Target) (env : Env) (cmd : Command)
    (p : ParserImpl T) :
    (we_try_get_matches t env cmd).exitCode = none ∧
    (we_try_get_matches t env cmd).writes = [] ∧
    (we_try_get_matches t env cmd).result = cmd.tryGetMatchesFrom (env.srcArgs t) ∧
    (we_try_parse t env p).exitCode = none ∧
    (we_try_parse t env p).writes = [] ∧
    (we_try_parse t env p).result = p.tryParseFrom (env.srcArgs t) := by
  cases t <;> simp [we_try_get_matches, we_try_parse, Env.srcArgs]

/-- Claim C4: holding the grammar fixed, the native-target try entry
point on the process argument vector and the web-target try entry point
on the URL-derived sequence produce identical results whenever the two
argument sequences are equal. -/
theorem we_clap_C4 {T : Type} (cmd : Command) (p : ParserImpl T)
    (envN envW : Env) (h : envN.argsOs = envW.urlArgs) :
    (we_try_get_matches .native envN cmd).result
        = (we_try_get_matches .wasm32 envW cmd).result ∧
    (we_try_parse .native envN p).result
        = (we_try_parse .wasm32 envW p).result := by
  simp [we_try_get_matches, we_try_parse, h]

/-- Witness for C4 at a pair of environments carrying the same logical
arguments through the two sources. -/
theorem we_clap_C4_witness :
    (we_try_get_matches .native envNat cmdOkCase).result
        = (we_try_get_matches .wasm32 envWeb cmdOkCase).result ∧
    (we_try_parse .native envNat optsOkCase).result
        = (we_try_parse .wasm32 envWeb optsOkCase).result :=
  we_clap_C4 cmdOkCase optsOkCase envNat envWeb rfl

/-- Claim C5: on either build target, when parsing succeeds the
terminating entry points (we_get_matches, we_parse) and the
non-terminating ones (we_try_get_matches, we_try_parse) return the same
parsed result. -/
theorem we_clap_C5 {T : Type} (t : Target) (env : Env) (cmd : Command)
    (p : ParserImpl T) (m : ArgMatches) (x : T)
    (hcmd : cmd.tryGetMatchesFrom (env.srcArgs t) = .ok m)
    (hp : p.tryParseFrom (env.srcArgs t) = .ok x) :
    (we_get_matches t env cmd).value = some m ∧
    (we_try_get_matches t env cmd).result = .ok m ∧
    (we_parse t env p).value = some x ∧
    (we_try_parse t env p).result = .ok x := by
  cases t <;>
    simp_all [we_get_matches, we_try_get_matches, we_parse, we_try_parse,
      clapNativeRun, Env.srcArgs]

/-- Witness for C5 at a concrete grammar whose parse succeeds. -/
theorem we_clap_C5_witness :
    (we_get_matches .wasm32 demoEnv cmdOkCase).value = some sampleMatches ∧
    (we_try_get_matches .wasm32 demoEnv cmdOkCase).result = .ok sampleMatches ∧
    (we_parse .wasm32 demoEnv optsOkCase).value = some 7 ∧
    (we_try_parse .wasm32 demoEnv optsOkCase).result = .ok 7 :=
  we_clap_C5 .wasm32 demoEnv cmdOkCase optsOkCase sampleMatches 7 rfl rfl

/-- Claim C6: on either build target, when parsing fails each terminating
entry point writes the message and then exits: it performs at least one
write, calls process exit, and returns no value to the caller. -/
theorem we_clap_C6 {T : Type} (t : Target) (env : Env) (cmd : Command)
    (p : ParserImpl T) (err : Error)
    (hcmd : cmd.tryGetMatchesFrom (env.srcArgs t) = .error err)
    (hp : p.tryParseFrom (env.srcArgs t) = .error err) :
    ((we_get_matches t env cmd).value = none ∧
      (we_get_matches t env cmd).exitCode.isSome = true ∧
      (we_get_matches t env cmd).writes ≠ []) ∧
    (((we_get_matches_mut t env cmd).2).value = none ∧
      ((we_get_matches_mut t env cmd).2).exitCode.isSome = true ∧
      ((we_get_matches_mut t env cmd).2).writes ≠ []) ∧
    ((we_parse t env p).value = none ∧
      (we_parse t env p).exitCode.isSome = true ∧
      (we_parse t env p).writes ≠ []) := by
  obtain ⟨k, msg⟩ := err
  cases k <;> cases t <;>
    simp_all [we_get_matches, we_get_matches_mut, we_parse, clapNativeRun,
      clapErrorExit, Env.srcArgs]

/-- Witness for C6 at a concrete grammar whose parse rejects an
argument. -/
theorem we_clap_C6_witness :
    ((we_get_matches .wasm32 demoEnv cmdBadCase).value = none ∧
      (we_get_matches .wasm32 demoEnv cmdBadCase).exitCode.isSome = true ∧
      (we_get_matches .wasm32 demoEnv cmdBadCase).writes ≠ []) ∧
    (((we_get_matches_mut .wasm32 demoEnv cmdBadCase).2).value = none ∧
      ((we_get_matches_mut .wasm32 demoEnv cmdBadCase).2).exitCode.isSome = true ∧
      ((we_get_matches_mut .wasm32 demoEnv cmdBadCase).2).writes ≠ []) ∧
    ((we_parse .wasm32 demoEnv optsBadCase).value = none ∧
      (we_parse .wasm32 demoEnv optsBadCase).exitCode.isSome = true ∧
      (we_parse .wasm32 demoEnv optsBadCase).writes ≠ []) :=
  we_clap_C6 .wasm32 demoEnv cmdBadCase optsBadCase badArgErr rfl rfl

/-- Claim C7: on the wasm32 target, every failing parse in a terminating
entry point exits with code 0, whether the failure was a help or version
display or a user error. -/
theorem we_clap_C7 {T : Type} (env : Env) (cmd : Command) (p : ParserImpl T)
    (err : Error)
    (hcmd : cmd.tryGetMatchesFrom env.urlArgs = .error err)
    (hp : p.tryParseFrom env.urlArgs = .error err) :
    (we_get_matches .wasm32 env cmd).exitCode = some 0 ∧
    ((we_get_matches_mut .wasm32 env cmd).2).exitCode = some 0 ∧
    (we_parse .wasm32 env p).exitCode = some 0 := by
  obtain ⟨k, msg⟩ := err
  cases k <;> simp_all [we_get_matches, we_get_matches_mut, we_parse]

/-- Witness for C7 at a concrete grammar whose parse rejects an
argument. -/
theorem we_clap_C7_witness :
    (we_get_matches .wasm32 demoEnv cmdBadCase).exitCode = some 0 ∧
    ((we_get_matches_mut .wasm32 demoEnv cmdBadCase).2).exitCode = some 0 ∧
    (we_parse .wasm32 demoEnv optsBadCase).exitCode = some 0 :=
  we_clap_C7 demoEnv cmdBadCase optsBadCase badArgErr rfl rfl

/-- Claim C8: we_print_help and we_print_long_help write the rendered
help text to the success sink on both targets; on wasm32 they always
return Ok, and on native they return exactly the host stream's io
result, error included. -/
theorem we_clap_C8 (t : Target) (cmd : Command)
    (stdoutRes : Except HostWriteError Unit) :
    (we_print_help t cmd stdoutRes).writes = [(Sink.success, cmd.renderHelp)] ∧
    (we_print_long_help t cmd stdoutRes).writes
        = [(Sink.success, cmd.renderLongHelp)] ∧
    (we_print_help .wasm32 cmd stdoutRes).result = .ok () ∧
    (we_print_long_help .wasm32 cmd stdoutRes).result = .ok () ∧
    (we_print_help .native cmd stdoutRes).result = stdoutRes ∧
    (we_print_long_help .native cmd stdoutRes).result = stdoutRes := by
  cases t <;> simp [we_print_help, we_print_long_help]

/-- Claim C9: we_get_matches_mut leaves the grammar with the caller and
otherwise behaves exactly as we_get_matches on both targets. -/
theorem we_clap_C9 (t : Target) (env : Env) (cmd : Command) :
    we_get_matches_mut t env cmd = (cmd, we_get_matches t env cmd) := by
  cases t <;> rfl

/-- Claim C10: on the wasm32 target, the text a terminating entry point
writes on a failing parse is exactly the Display formatting of the
wrapped library's error value. -/
theorem we_clap_C10 {T : Type} (env : Env) (cmd : Command) (p : ParserImpl T)
    (err : Error)
    (hcmd : cmd.tryGetMatchesFrom env.urlArgs = .error err)
    (hp : p.tryParseFrom env.urlArgs = .error err) :
    ((we_get_matches .wasm32 env cmd).writes).map Prod.snd = [err.rendered] ∧
    (((we_get_matches_mut .wasm32 env cmd).2).writes).map Prod.snd
        = [err.rendered] ∧
    ((we_parse .wasm32 env p).writes).map Prod.snd = [err.rendered] := by
  obtain ⟨k, msg⟩ := err
  cases k <;> simp_all [we_get_matches, we_get_matches_mut, we_parse]

/-- Witness for C10 at a concrete grammar whose parse rejects an
argument. -/
theorem we_clap_C10_witness :
    ((we_get_matches .wasm32 demoEnv cmdBadCase).writes).map Prod.snd
        = [badArgErr.rendered] ∧
    (((we_get_matches_mut .wasm32 demoEnv cmdBadCase).2).writes).map Prod.snd
        = [badArgErr.rendered] ∧
    ((we_parse .wasm32 demoEnv optsBadCase).writes).map Prod.snd
        = [badArgErr.rendered] :=
  we_clap_C10 demoEnv cmdBadCase optsBadCase badArgErr rfl rfl

end WeClap
